import Mathlib

/-!
Shallow embedding of py-smartdc (src/smartdc/datacenter.py, src/smartdc/machine.py).

Python dicts are modelled as association lists with in-place-update
semantics (`dictSet` replaces the value of an existing key in place and
appends a fresh key at the end, matching CPython's insertion behaviour as
far as key/value content is concerned).  Decoded JSON values are modelled
by the inductive `Json`; `json.dumps`/`json.loads` are abstracted to the
decoded value itself (serialization is a bijection on the fragment the
library touches).  The network is an oracle `server : Nat → Response`
giving the response to the n-th HTTP request issued; every modelled
operation threads the index of the next request and returns the list of
`NetRequest`s it issued, so that claims about what went on the wire are
statable.  Python exceptions are modelled with `Except PyError`.
-/

/-- Association-list lookup, `d.get(k)` / `d[k]` (the caller decides what a
missing key means). -/
def dictGet? {α : Type} : List (String × α) → String → Option α
  | [], _ => none
  | p :: t, k => if p.1 == k then some p.2 else dictGet? t k

/-- `d[k] = v` on a Python dict: replace in place if the key exists,
append otherwise. -/
def dictSet {α : Type} (d : List (String × α)) (k : String) (v : α) :
    List (String × α) :=
  if d.any (fun p => p.1 == k) then
    d.map (fun p => if p.1 == k then (k, v) else p)
  else
    d ++ [(k, v)]

/-- `d.update(other)`: set every key/value of `other` in order. -/
def dictUpdate {α : Type} (d other : List (String × α)) : List (String × α) :=
  other.foldl (fun acc p => dictSet acc p.1 p.2) d

/-- `d.pop(k, default)` / `del d[k]`: the dict without key `k`. -/
def dictRemove {α : Type} : List (String × α) → String → List (String × α)
  | [], _ => []
  | p :: t, k => if p.1 == k then dictRemove t k else p :: dictRemove t k

/-- Decoded JSON values (the result of `json.loads`). -/
inductive Json : Type where
  | null : Json
  | str (s : String) : Json
  | num (n : Int) : Json
  | bool (b : Bool) : Json
  | arr (xs : List Json) : Json
  | obj (fields : List (String × Json)) : Json

/-- Python truthiness of a decoded JSON value. -/
def Json.truthy : Json → Bool
  | .null => false
  | .str s => s ≠ ""
  | .num n => n ≠ 0
  | .bool b => b
  | .arr xs => ¬xs.isEmpty
  | .obj fs => ¬fs.isEmpty

/-- Truthiness of an optional value (`None` is falsy). -/
def optTruthy (o : Option Json) : Bool :=
  match o with
  | none => false
  | some j => j.truthy

/-- Truthiness of an optional string argument (`None` and `''` are falsy). -/
def strTruthy (o : Option String) : Bool :=
  match o with
  | none => false
  | some s => s ≠ ""

/-- Truthiness of an optional integer argument (`None` and `0` are falsy). -/
def intTruthy (o : Option Int) : Bool :=
  match o with
  | none => false
  | some n => n ≠ 0

/-- `a or b` for an optional string with Python truthiness. -/
def orDefaultStr (o : Option String) (dflt : String) : String :=
  if strTruthy o then o.getD dflt else dflt

/-- A JSON object's field list (a decoded resource record). -/
abbrev Record := List (String × Json)

/-- Query/body parameter dicts passed to the HTTP layer. -/
abbrev Params := List (String × Json)

/-- Header dicts (string-valued). -/
abbrev Headers := List (String × String)

/-- Python exceptions that the embedded code can raise. -/
inductive PyError : Type where
  | httpError (status : Nat) : PyError
  | keyError (k : String) : PyError
  | nameError (n : String) : PyError
  | valueError (s : String) : PyError
  | attributeError (s : String) : PyError
  | typeError (s : String) : PyError
  deriving DecidableEq

/-- Modelled from the spec: the Signature Provider of the external
`http_signature` dependency (not under src/).  A Credential is a key
identifier plus a secret source; `agent_key` records whether an
agent-based key is available that has not yet been tried (the truthiness
of `_agent_key` tested by `DataCenter.request`). -/
structure Signer : Type where
  key_id : String
  secret : String
  agent_key : Bool
  deriving DecidableEq

/-- Modelled from the spec: `swapCredentialSource()` switches the active
secret lookup for the same key identifier; after the swap the agent-based
key is no longer an untried source, so the session's 401 guard cannot
fire a second time during the same call. -/
def Signer.swap_keys (s : Signer) : Signer :=
  { s with agent_key := false }

/-- `self.auth and self.auth.signer._agent_key` from the 401 guard. -/
def authAgent (auth : Option Signer) : Bool :=
  match auth with
  | none => false
  | some a => a.agent_key

def API_HOST_SUFFIX : String := ".api.joyentcloud.com"

def DEFAULT_LOCATION : String := "us-west-1"

def KNOWN_LOCATIONS : List (String × String) :=
  [("us-east-1", "https://us-east-1.api.joyentcloud.com"),
   ("us-sw-1",   "https://us-sw-1.api.joyentcloud.com"),
   ("us-west-1", "https://us-west-1.api.joyentcloud.com"),
   ("eu-ams-1",  "https://eu-ams-1.api.joyentcloud.com")]

def API_VERSION : String := "7.0"

/-- The module-level `DEFAULT_HEADERS` dict of datacenter.py (the
User-Agent version string is abstracted). -/
def DEFAULT_HEADERS : Headers :=
  [("Accept", "application/json"),
   ("Content-Type", "application/json; charset=UTF-8"),
   ("User-Agent", "py-smartdc")]

/-- The mutable module state: a heap of header dicts.  Address 0 holds the
module-level `DEFAULT_HEADERS` object; `DataCenter.__init__` stores a
reference (an address), not a copy. -/
structure PyEnv : Type where
  store : List Headers

def initialEnv : PyEnv := ⟨[DEFAULT_HEADERS]⟩

def defaultHeadersAddr : Nat := 0

def storeGet (env : PyEnv) (addr : Nat) : Headers :=
  env.store.getD addr []

def storeSet (env : PyEnv) (addr : Nat) (h : Headers) : PyEnv :=
  ⟨env.store.set addr h⟩

/-- The connection object of datacenter.py.  `login` is kept as a decoded
JSON value because `me()` assigns a server-supplied field to it. -/
structure DataCenter : Type where
  location : String
  known_locations : List (String × String)
  verbose : Bool
  verify : Bool
  auth : Option Signer
  headers_addr : Nat
  login : Json

/-- `DataCenter.__init__`.  `agent_has_key` models the external ssh-agent
probe performed by `HTTPSignatureAuth` when `allow_agent` is set.  The
constructor binds `self.default_headers` to the module-level dict by
reference (`headers_addr := defaultHeadersAddr`) and then mutates that
shared dict in place: first `self.default_headers['X-Api-Version'] =
self.API_VERSION`, then `self.default_headers.update(headers)`. -/
def DataCenter.init (env : PyEnv) (location : Option String)
    (key_id : Option String) (secret : String) (headers : Option Headers)
    (login : Option Json) (known_locations : Option (List (String × String)))
    (allow_agent : Bool) (verify : Bool) (agent_has_key : Bool) :
    DataCenter × PyEnv :=
  let auth : Option Signer :=
    if strTruthy key_id ∧ secret ≠ "" then
      some ⟨key_id.getD "", secret, allow_agent && agent_has_key⟩
    else
      none
  let addr := defaultHeadersAddr
  let env1 := storeSet env addr
    (dictSet (storeGet env addr) "X-Api-Version" API_VERSION)
  let env2 :=
    match headers with
    | some h => if h.isEmpty then env1
        else storeSet env1 addr (dictUpdate (storeGet env1 addr) h)
    | none => env1
  let kl :=
    match known_locations with
    | some l => if l.isEmpty then KNOWN_LOCATIONS else l
    | none => KNOWN_LOCATIONS
  ({ location := orDefaultStr location DEFAULT_LOCATION,
     known_locations := kl,
     verbose := false,
     verify := verify,
     auth := auth,
     headers_addr := addr,
     login := if optTruthy login then login.getD (.str "my") else .str "my" },
   env2)

/-- `str()` of the values that reach URL formatting. -/
def Json.pyStr : Json → String
  | .null => "None"
  | .str s => s
  | .num n => toString n
  | .bool b => if b then "True" else "False"
  | .arr _ => "<list>"
  | .obj _ => "<dict>"

/-- `DataCenter.base_url`. -/
def DataCenter.base_url (dc : DataCenter) : String :=
  match dictGet? dc.known_locations dc.location with
  | some u => u
  | none =>
      if dc.location.contains '.' ∨ dc.location = "localhost" then
        "https://" ++ dc.location
      else
        "https://" ++ dc.location ++ API_HOST_SUFFIX

/-- `DataCenter.url`. -/
def DataCenter.url (dc : DataCenter) : String :=
  dc.base_url ++ "/" ++ dc.login.pyStr ++ "/"

/-- A server response: status, headers and the (already decoded) body;
`none` is an empty body. -/
structure Response : Type where
  status : Nat
  headers : Headers
  content : Option Json

/-- One HTTP request as handed to the transport.  `auth` records the
credential state used to sign it (`none` means no signature attached). -/
structure NetRequest : Type where
  method : String
  url : String
  auth : Option Signer
  headers : Headers
  body : Option Json
  params : Params

/-- The decoded body returned by `DataCenter.request`: `None`, a JSON
decode, or the raw content for a non-JSON content type. -/
inductive Decoded : Type where
  | noneBody : Decoded
  | json (j : Json) : Decoded
  | raw (j : Json) : Decoded

/-- Everything a call to `DataCenter.request` produces: its return value
or exception, the session state after the call, the untouched module
state, the requests that went on the wire, the bodies printed to stderr,
and the next server index. -/
structure RequestOut : Type where
  result : Except PyError (Decoded × Response)
  dc : DataCenter
  env : PyEnv
  sent : List NetRequest
  stderr : List Json
  k : Nat

/-- The straight-line tail of `DataCenter.request` after the 401 guard:
client-error check (`400 <= resp.status_code < 499`, printing the body to
stderr and calling `raise_for_status`) and body decoding keyed on the
`content-type` response header. -/
def finishResponse (resp : Response) :
    Except PyError (Decoded × Response) × List Json :=
  if 400 ≤ resp.status ∧ resp.status < 499 then
    let errLog := match resp.content with
      | some b => [b]
      | none => []
    (.error (.httpError resp.status), errLog)
  else
    match resp.content with
    | some body =>
        match dictGet? resp.headers "content-type" with
        | some ct =>
            if ct = "application/json" then (.ok (.json body, resp), [])
            else (.ok (.raw body, resp), [])
        | none => (.error (.keyError "content-type"), [])
    | none => (.ok (.noneBody, resp), [])

/-- The dispatch step of `DataCenter.request`: compose the full URL
(`self.url + path`), build `request_headers` as a fresh dict updated
first with `self.default_headers` and then with the per-call headers,
serialize a truthy body, and hand everything (with the current
credential) to the transport. -/
def mkNetRequest (dc : DataCenter) (env : PyEnv) (method path : String)
    (headers : Option Headers) (data : Option Json) (params : Params) :
    NetRequest :=
  { method := method,
    url := dc.url ++ path,
    auth := dc.auth,
    headers := dictUpdate (dictUpdate [] (storeGet env dc.headers_addr))
      (headers.getD []),
    body := if optTruthy data then data else none,
    params := params }

/-- The body of `DataCenter.request`: dispatch (`mkNetRequest`), and on a
401 with an untried agent key swap the credential source and re-enter the
whole request; otherwise run the straight-line tail (`finishResponse`). -/
def requestGo (server : Nat → Response) (env : PyEnv)
    (method path : String) (headers : Option Headers) (data : Option Json)
    (params : Params) (dc : DataCenter) (k : Nat)
    (sent : List NetRequest) (errLog : List Json) : RequestOut :=
  let req := mkNetRequest dc env method path headers data params
  let resp := server k
  if resp.status == 401 && authAgent dc.auth then
    let dc' := { dc with auth := dc.auth.map Signer.swap_keys }
    requestGo server env method path headers data params dc' (k + 1)
      (sent ++ [req]) errLog
  else
    { result := (finishResponse resp).1, dc := dc, env := env,
      sent := sent ++ [req], stderr := errLog ++ (finishResponse resp).2,
      k := k + 1 }
termination_by (if authAgent dc.auth then 1 else 0)
decreasing_by
  simp_all [authAgent, Signer.swap_keys]
  cases h : dc.auth with
  | none => simp [h] at *
  | some a => simp [h, Option.map, Signer.swap_keys] at *

/-- `DataCenter.request(method, path, headers=.., data=.., params=..)`. -/
def DataCenter.request (dc : DataCenter) (env : PyEnv)
    (server : Nat → Response) (method path : String)
    (headers : Option Headers) (data : Option Json) (params : Params)
    (k : Nat) : RequestOut :=
  requestGo server env method path headers data params dc k [] []

/-- The value a caller sees for the first component of `request`'s return
tuple (`None`, or the decoded or raw body). -/
def Decoded.val : Decoded → Option Json
  | .noneBody => none
  | .json j => some j
  | .raw j => some j

/-- Python `key in j` for the decoded values that can reach it: key lookup
for a dict, element test for a list, substring test for a string; other
operands raise `TypeError`. -/
def jsonContains (j : Json) (key : String) : Except PyError Bool :=
  match j with
  | .obj fs => .ok ((dictGet? fs key).isSome)
  | .arr xs => .ok (xs.any (fun x => match x with
      | .str s => s == key
      | _ => false))
  | .str s => .ok ((s.splitOn key).length > 1)
  | _ => .error (.typeError "argument is not iterable")

/-- `self.login == 'my'` (Python `==` against the string `'my'`). -/
def Json.eqMy (j : Json) : Bool :=
  match j with
  | .str s => s == "my"
  | _ => false

/-- What `DataCenter.me` produces: its return value or exception plus the
session state after the call. -/
structure MeOut : Type where
  result : Except PyError Json
  dc : DataCenter
  env : PyEnv
  sent : List NetRequest
  k : Nat

/-- `DataCenter.me`: `GET /:login`, then
`if 'login' in j and self.login == 'my': self.login = j['login']`. -/
def DataCenter.me (dc : DataCenter) (env : PyEnv) (server : Nat → Response)
    (k : Nat) : MeOut :=
  let out := dc.request env server "GET" "" none none [] k
  match out.result with
  | .error e => ⟨.error e, out.dc, out.env, out.sent, out.k⟩
  | .ok (d, _) =>
      match d.val with
      | none => ⟨.error (.typeError "argument is not iterable"),
          out.dc, out.env, out.sent, out.k⟩
      | some j =>
          match jsonContains j "login" with
          | .error e => ⟨.error e, out.dc, out.env, out.sent, out.k⟩
          | .ok mem =>
              if mem && out.dc.login.eqMy then
                match j with
                | .obj fs =>
                    match dictGet? fs "login" with
                    | some v => ⟨.ok j, { out.dc with login := v },
                        out.env, out.sent, out.k⟩
                    | none => ⟨.error (.keyError "login"),
                        out.dc, out.env, out.sent, out.k⟩
                | _ => ⟨.error (.typeError "not subscriptable"),
                    out.dc, out.env, out.sent, out.k⟩
              else
                ⟨.ok j, out.dc, out.env, out.sent, out.k⟩

/-- `DataCenter.packages`: build `params` from the named options (each
included only when truthy) and `GET /:login/packages`.  The Python method
returns the decoded component of `result`. -/
def DataCenter.packages (dc : DataCenter) (env : PyEnv)
    (server : Nat → Response) (k : Nat) (name : Option String)
    (memory disk swap : Option Int) (version : Option String)
    (vcpus : Option Int) (group : Option String) : RequestOut :=
  let p0 : Params := []
  let p1 := if strTruthy name then dictSet p0 "name" (.str (name.getD "")) else p0
  let p2 := if intTruthy memory then dictSet p1 "memory" (.num (memory.getD 0)) else p1
  let p3 := if intTruthy disk then dictSet p2 "disk" (.num (disk.getD 0)) else p2
  let p4 := if intTruthy swap then dictSet p3 "swap" (.num (swap.getD 0)) else p3
  let p5 := if strTruthy version then dictSet p4 "version" (.str (version.getD "")) else p4
  let p6 := if intTruthy vcpus then dictSet p5 "vcpus" (.num (vcpus.getD 0)) else p5
  let p7 := if strTruthy group then dictSet p6 "group" (.str (group.getD "")) else p6
  dc.request env server "GET" "packages" none none p7 k

/-- Decimal digit accumulator for `pyInt`. -/
def parseNatDigits : List Char → Option Nat → Option Nat
  | [], acc => acc
  | c :: cs, acc =>
      if 48 ≤ c.toNat ∧ c.toNat ≤ 57 then
        parseNatDigits cs (some ((acc.getD 0) * 10 + (c.toNat - 48)))
      else none

/-- Python `int(s)` on the decimal strings the API reports in its count
headers (`ValueError` on anything else is signalled by `none`). -/
def pyInt (s : String) : Option Int :=
  match s.toList with
  | '-' :: rest => (parseNatDigits rest none).map (fun n => -(n : Int))
  | l => (parseNatDigits l none).map (fun n => (n : Int))

/-- `DataCenter.num_machines`: a filter-less `HEAD /:login/machines`; the
named filter parameters are accepted but never read by the body, which
returns `int(r.headers.get('x-resource-count', 0))`. -/
def DataCenter.num_machines (dc : DataCenter) (env : PyEnv)
    (server : Nat → Response) (k : Nat) (machine_type dataset state : Option String)
    (memory tombstone : Option Int) (tags : Option Record) :
    Except PyError Int × RequestOut :=
  let out := dc.request env server "HEAD" "machines" none none [] k
  match out.result with
  | .error e => (.error e, out)
  | .ok (_, r) =>
      match dictGet? r.headers "x-resource-count" with
      | some s =>
          match pyInt s with
          | some n => (.ok n, out)
          | none => (.error (.valueError s), out)
      | none => (.ok 0, out)

/-- A Python argument that is either a bare string identifier or a
record to extract an identifier from. -/
inductive PyArg : Type where
  | str (s : String) : PyArg
  | dict (d : Record) : PyArg

/-- Truthiness of an optional string-or-dict argument. -/
def argTruthy (o : Option PyArg) : Bool :=
  match o with
  | none => false
  | some (.str s) => s ≠ ""
  | some (.dict d) => ¬d.isEmpty

/-- `DataCenter.machines`.  The `while True` loop body either `break`s
(`paged`, or `resource_count <= query_limit`) or executes
`data['offset'] = params.get('offset', offset) + params.get('limit', limit)`
where no name `data` is bound anywhere in the function or module, raising
`NameError`; the loop's back-edge is therefore unreachable and the body is
written once.  The final per-record `Machine(...)` wrapping is elided: the
collected pages are returned as the decoded records. -/
def DataCenter.machines (dc : DataCenter) (env : PyEnv)
    (server : Nat → Response) (k : Nat) (machine_type name : Option String)
    (dataset : Option PyArg) (state : Option String)
    (memory tombstone : Option Int) (tags : Option Record)
    (credentials : Bool) (paged : Bool) (limit offset : Option Int) :
    Except PyError (List Json) × List NetRequest × Nat :=
  let p0 : Params := []
  let p1 := if strTruthy machine_type then dictSet p0 "type" (.str (machine_type.getD "")) else p0
  let p2 := if strTruthy name then dictSet p1 "name" (.str (name.getD "")) else p1
  let pdE : Except PyError Params :=
    if argTruthy dataset then
      match dataset with
      | some (.str s) => .ok (dictSet p2 "dataset" (.str s))
      | some (.dict d) =>
          -- dataset = dataset.get('urn', dataset['id'])
          (match dictGet? d "urn" with
           | some v => .ok (dictSet p2 "dataset" v)
           | none =>
               match dictGet? d "id" with
               | some v => .ok (dictSet p2 "dataset" v)
               | none => .error (.keyError "id"))
      | none => .ok p2
    else .ok p2
  match pdE with
  | .error e => (.error e, [], k)
  | .ok p3 =>
    let p4 := if strTruthy state then dictSet p3 "state" (.str (state.getD "")) else p3
    let p5 := if intTruthy memory then dictSet p4 "memory" (.num (memory.getD 0)) else p4
    let p6 := if intTruthy tombstone then dictSet p5 "tombstone" (.num (tombstone.getD 0)) else p5
    let p7 :=
      match tags with
      | some t => if t.isEmpty then p6
          else t.foldl (fun acc kv => dictSet acc ("tag." ++ kv.1) kv.2) p6
      | none => p6
    let p8 := if credentials then dictSet p7 "credentials" (.bool true) else p7
    let p9 := if intTruthy limit then dictSet p8 "limit" (.num (limit.getD 0)) else p8
    let p10 := if intTruthy offset then dictSet p9 "offset" (.num (offset.getD 0)) else p9
    let out := dc.request env server "GET" "machines" none none p10 k
    match out.result with
    | .error e => (.error e, out.sent, out.k)
    | .ok (d, r) =>
        match d.val with
        | some (.arr xs) =>
            if ¬paged then
              match dictGet? r.headers "x-query-limit" with
              | none => (.error (.keyError "x-query-limit"), out.sent, out.k)
              | some ql =>
                match pyInt ql with
                | none => (.error (.valueError ql), out.sent, out.k)
                | some qln =>
                  match dictGet? r.headers "x-resource-count" with
                  | none => (.error (.keyError "x-resource-count"), out.sent, out.k)
                  | some rc =>
                    match pyInt rc with
                    | none => (.error (.valueError rc), out.sent, out.k)
                    | some rcn =>
                      if rcn > qln then
                        (.error (.nameError "data"), out.sent, out.k)
                      else
                        (.ok xs, out.sent, out.k)
            else (.ok xs, out.sent, out.k)
        | _ => (.error (.typeError "machines.extend"), out.sent, out.k)

/-- `x.rpartition('+')[0]`: everything before the last `'+'`, or `''`
when there is none. -/
def beforeLastPlus (x : String) : String :=
  match x.toList.reverse.dropWhile (fun c => c ≠ '+') with
  | [] => ""
  | _ :: rest => String.mk rest.reverse

/-- `dt_time` applied to `data.get(...)`: the argument must be a string
(otherwise `.rpartition` raises `AttributeError`); `strptime` is
abstracted to the normalized timestamp text it parses. -/
def dt_time (j : Option Json) : Except PyError String :=
  match j with
  | some (.str s) => .ok (beforeLastPlus s)
  | _ => .error (.attributeError "rpartition")

/-- The cached attributes of a `Machine` local proxy. -/
structure MachineObj : Type where
  id : Json
  name : Option Json
  type : Option Json
  state : Option Json
  dataset : Option Json
  memory : Option Json
  disk : Option Json
  ips : Json
  metadata : Record
  creds : Record
  boot_script : Option Json
  created : String
  updated : String

/-- `Machine._save(data)` together with the `_credentials` initialization
from `__init__`: `oldCreds` is whatever `self._credentials` held before
(`{}` on first save), and the fetched `credentials` sub-dict is merged
into it with `dict.update`, after being popped from the metadata. -/
def Machine.save_data (oldCreds : Record) (id : Json) (data : Record) :
    Except PyError MachineObj := do
  let metadata0 ←
    match dictGet? data "metadata" with
    | none => Except.ok ([] : Record)
    | some (.obj fs) => Except.ok fs
    | some _ => Except.error (.attributeError "pop")
  let credsPopped ←
    match dictGet? metadata0 "credentials" with
    | none => Except.ok ([] : Record)
    | some (.obj cs) => Except.ok cs
    | some _ => Except.error (.typeError "dict.update")
  let metadata1 := dictRemove metadata0 "credentials"
  let creds := dictUpdate oldCreds credsPopped
  let boot_script := dictGet? metadata1 "user-script"
  let metadata2 := dictRemove metadata1 "user-script"
  let created ← dt_time (dictGet? data "created")
  let updated ← dt_time (dictGet? data "updated")
  Except.ok
    { id := id,
      name := dictGet? data "name",
      type := dictGet? data "type",
      state := dictGet? data "state",
      dataset := dictGet? data "dataset",
      memory := dictGet? data "memory",
      disk := dictGet? data "disk",
      ips := (dictGet? data "ips").getD (.arr []),
      metadata := metadata2,
      creds := creds,
      boot_script := boot_script,
      created := created,
      updated := updated }

/-- `Machine.__init__(datacenter, data=record)`: pop `id`, and when the
remaining dict is falsy fall back to a fresh fetch (`fetched` stands for
the `raw_machine_data` result), then `_save`. -/
def Machine.initData (data : Record) (fetched : Record) :
    Except PyError MachineObj := do
  let id ←
    match dictGet? data "id" with
    | some v => Except.ok v
    | none => Except.error (.keyError "id")
  let data1 := dictRemove data "id"
  let data2 := if data1.isEmpty then fetched else data1
  Machine.save_data [] id data2

/-- `Machine.refresh()`: `_save` applied to the freshly fetched record
(`fetched` stands for the `raw_machine_data` result). -/
def Machine.refresh (m : MachineObj) (fetched : Record) :
    Except PyError MachineObj :=
  Machine.save_data m.creds m.id fetched

/-- The cached attributes of a `Snapshot` local proxy. -/
structure SnapshotObj : Type where
  name : Json
  state : Option Json
  created : String
  updated : String

/-- `Snapshot._save(data)`. -/
def Snapshot.save_data (name : Json) (data : Record) :
    Except PyError SnapshotObj := do
  let created ← dt_time (dictGet? data "created")
  let updated ← dt_time (dictGet? data "updated")
  Except.ok
    { name := name,
      state := dictGet? data "state",
      created := created,
      updated := updated }

/-- `Snapshot.refresh()`. -/
def Snapshot.refresh (s : SnapshotObj) (fetched : Record) :
    Except PyError SnapshotObj :=
  Snapshot.save_data s.name fetched

/-- The metadata dict a successful `Machine._save` starts from. -/
def metaOf (data : Record) : Record :=
  match dictGet? data "metadata" with
  | some (.obj fs) => fs
  | _ => []

/-- The credentials sub-dict a successful `Machine._save` pops out. -/
def credsOf (data : Record) : Record :=
  match dictGet? (metaOf data) "credentials" with
  | some (.obj cs) => cs
  | _ => []

/-- The timestamp text a successful `dt_time` yields for a field. -/
def dtOf (data : Record) (key : String) : String :=
  match dictGet? data key with
  | some (.str s) => beforeLastPlus s
  | _ => ""

/-- The machine a successful `Machine._save` produces, as a total
function of the previous credentials, the identifier and the record. -/
def mkSaved (oldCreds : Record) (id : Json) (data : Record) : MachineObj :=
  { id := id,
    name := dictGet? data "name",
    type := dictGet? data "type",
    state := dictGet? data "state",
    dataset := dictGet? data "dataset",
    memory := dictGet? data "memory",
    disk := dictGet? data "disk",
    ips := (dictGet? data "ips").getD (.arr []),
    metadata := dictRemove (dictRemove (metaOf data) "credentials")
      "user-script",
    creds := dictUpdate oldCreds (credsOf data),
    boot_script := dictGet? (dictRemove (metaOf data) "credentials")
      "user-script",
    created := dtOf data "created",
    updated := dtOf data "updated" }

/-- A concrete machine record in the `provisioning` state. -/
def recProvisioning : Record :=
  [("id", .str "m-1"),
   ("name", .str "node"),
   ("type", .str "smartmachine"),
   ("state", .str "provisioning"),
   ("memory", .num 256),
   ("ips", .arr [.str "10.0.0.1"]),
   ("metadata", .obj [("credentials", .obj [("root", .str "pw")]),
     ("user-script", .str "#!/bin/sh")]),
   ("created", .str "2013-01-01T00:00:00+00:00"),
   ("updated", .str "2013-01-01T00:00:00+00:00")]

/-- The same machine record, differing only in the `state` field. -/
def recRunning : Record :=
  [("id", .str "m-1"),
   ("name", .str "node"),
   ("type", .str "smartmachine"),
   ("state", .str "running"),
   ("memory", .num 256),
   ("ips", .arr [.str "10.0.0.1"]),
   ("metadata", .obj [("credentials", .obj [("root", .str "pw")]),
     ("user-script", .str "#!/bin/sh")]),
   ("created", .str "2013-01-01T00:00:00+00:00"),
   ("updated", .str "2013-01-01T00:00:00+00:00")]

/-- The machine an `Except` result carries, with a junk fallback. -/
def machineOf (e : Except PyError MachineObj) : MachineObj :=
  match e with
  | .ok m => m
  | .error _ => ⟨.null, none, none, none, none, none, none, .null, [], [],
      none, "", ""⟩

/-- A concrete session holding a Credential with an untried agent key. -/
def dcAgent : DataCenter :=
  { location := "us-west-1", known_locations := KNOWN_LOCATIONS,
    verbose := false, verify := true,
    auth := some ⟨"mykey", "~/.ssh/id_rsa", true⟩,
    headers_addr := 0, login := .str "my" }

/-- A concrete unauthenticated session. -/
def dcAnon : DataCenter := { dcAgent with auth := none }

/-- A server that answers 401 with an empty body to everything. -/
def server401 : Nat → Response := fun _ => ⟨401, [], none⟩

/-- A server that answers 499 with a JSON error body to everything. -/
def server499 : Nat → Response := fun _ =>
  ⟨499, [("content-type", "application/json")],
    some (.obj [("code", .str "TooManyRequests")])⟩

/-- A server that answers 498 with a JSON error body to everything. -/
def server498 : Nat → Response := fun _ =>
  ⟨498, [("content-type", "application/json")],
    some (.obj [("code", .str "TooManyRequests")])⟩

/-- One machine-listing page of 1000 entities. -/
def page1000 : List Json := List.replicate 1000 (.obj [("name", .str "m")])

/-- A listing server reporting a resource count of 2500 and a query
limit of 1000, serving pages of 1000 entities. -/
def serverPaged : Nat → Response := fun _ =>
  ⟨200, [("content-type", "application/json"), ("x-query-limit", "1000"),
    ("x-resource-count", "2500")], some (.arr page1000)⟩

/-- An account-info server whose login field is `alice`. -/
def serverMe : Nat → Response := fun _ =>
  ⟨200, [("content-type", "application/json")],
    some (.obj [("login", .str "alice"), ("companyName", .str "Acme")])⟩

/-- A HEAD-machines server reporting 42 machines. -/
def serverCount : Nat → Response := fun _ =>
  ⟨200, [("x-resource-count", "42")], none⟩

/-- One unfolding of `requestGo` when the 401-swap guard does not fire. -/
theorem requestGo_no_retry (server : Nat → Response) (env : PyEnv)
    (method path : String) (headers : Option Headers) (data : Option Json)
    (params : Params) (dc : DataCenter) (k : Nat)
    (sent : List NetRequest) (errLog : List Json)
    (h : ((server k).status == 401 && authAgent dc.auth) = false) :
    requestGo server env method path headers data params dc k sent errLog =
      { result := (finishResponse (server k)).1, dc := dc, env := env,
        sent := sent ++ [mkNetRequest dc env method path headers data params],
        stderr := errLog ++ (finishResponse (server k)).2, k := k + 1 } := by
  rw [requestGo]
  simp [h]

/-- One unfolding of `requestGo` when the 401-swap guard fires. -/
theorem requestGo_retry (server : Nat → Response) (env : PyEnv)
    (method path : String) (headers : Option Headers) (data : Option Json)
    (params : Params) (dc : DataCenter) (k : Nat)
    (sent : List NetRequest) (errLog : List Json)
    (h : ((server k).status == 401 && authAgent dc.auth) = true) :
    requestGo server env method path headers data params dc k sent errLog =
      requestGo server env method path headers data params
        { dc with auth := dc.auth.map Signer.swap_keys } (k + 1)
        (sent ++ [mkNetRequest dc env method path headers data params])
        errLog := by
  rw [requestGo]
  simp [h]

/-- After a credential swap the agent key can never test as untried. -/
theorem authAgent_map_swap (o : Option Signer) :
    authAgent (o.map Signer.swap_keys) = false := by
  cases o <;> simp [authAgent, Signer.swap_keys]

/-- `DataCenter.request` when the first response does not trigger the
401 swap: one request on the wire, no session mutation. -/
theorem request_once (dc : DataCenter) (env : PyEnv) (server : Nat → Response)
    (method path : String) (headers : Option Headers) (data : Option Json)
    (params : Params) (k : Nat)
    (h : ((server k).status == 401 && authAgent dc.auth) = false) :
    dc.request env server method path headers data params k =
      { result := (finishResponse (server k)).1, dc := dc, env := env,
        sent := [mkNetRequest dc env method path headers data params],
        stderr := (finishResponse (server k)).2, k := k + 1 } := by
  rw [DataCenter.request, requestGo_no_retry _ _ _ _ _ _ _ _ _ _ _ h]
  simp

/-- `DataCenter.request` when the first response triggers the 401 swap:
the whole request is re-entered exactly once with the swapped credential,
and the second outcome is final whatever its status. -/
theorem request_swap (dc : DataCenter) (env : PyEnv) (server : Nat → Response)
    (method path : String) (headers : Option Headers) (data : Option Json)
    (params : Params) (k : Nat)
    (h : ((server k).status == 401 && authAgent dc.auth) = true) :
    dc.request env server method path headers data params k =
      { result := (finishResponse (server (k + 1))).1,
        dc := { dc with auth := dc.auth.map Signer.swap_keys }, env := env,
        sent := [mkNetRequest dc env method path headers data params,
          mkNetRequest { dc with auth := dc.auth.map Signer.swap_keys } env
            method path headers data params],
        stderr := (finishResponse (server (k + 1))).2, k := k + 2 } := by
  rw [DataCenter.request, requestGo_retry _ _ _ _ _ _ _ _ _ _ _ h,
    requestGo_no_retry _ _ _ _ _ _ _ _ _ _ _
      (by simp [authAgent_map_swap] : (((server (k + 1)).status == 401) &&
        authAgent (({ dc with auth := dc.auth.map Signer.swap_keys } :
          DataCenter).auth)) = false)]
  simp

/-- C1: when `DataCenter.request` receives a 401 while a Credential is
set and an agent-based key is still untried, the credential source is
swapped and the whole request is retried exactly once (the retry carries
the swapped credential); a repeated 401 on the retry is surfaced as the
authentication failure raised by `raise_for_status`, never retried a
second time. -/
theorem c1_swap_and_retry_once (dc : DataCenter) (env : PyEnv)
    (server : Nat → Response) (method path : String)
    (headers : Option Headers) (data : Option Json) (params : Params)
    (k : Nat) (s : Signer) (hauth : dc.auth = some s)
    (hagent : s.agent_key = true) (h1 : (server k).status = 401)
    (h2 : (server (k + 1)).status = 401) :
    (dc.request env server method path headers data params k).sent.length = 2 ∧
    (dc.request env server method path headers data params k).sent.map
      NetRequest.auth = [some s, some (Signer.swap_keys s)] ∧
    (dc.request env server method path headers data params k).result =
      .error (.httpError 401) ∧
    (dc.request env server method path headers data params k).dc.auth =
      some (Signer.swap_keys s) := by
  rw [request_swap dc env server method path headers data params k
    (by simp [h1, hauth, authAgent, hagent])]
  refine ⟨rfl, ?_, ?_, ?_⟩
  · simp [mkNetRequest, hauth]
  · simp [finishResponse, h2]
  · simp [hauth]

/-- Witness for C1 at a concrete session and a server that always
answers 401. -/
theorem c1_swap_and_retry_once_witness :
    (dcAgent.request initialEnv server401 "GET" "keys" none none []
      0).sent.length = 2 ∧
    (dcAgent.request initialEnv server401 "GET" "keys" none none []
      0).sent.map NetRequest.auth =
      [some ⟨"mykey", "~/.ssh/id_rsa", true⟩,
       some (Signer.swap_keys ⟨"mykey", "~/.ssh/id_rsa", true⟩)] ∧
    (dcAgent.request initialEnv server401 "GET" "keys" none none []
      0).result = .error (.httpError 401) ∧
    (dcAgent.request initialEnv server401 "GET" "keys" none none []
      0).dc.auth = some (Signer.swap_keys ⟨"mykey", "~/.ssh/id_rsa", true⟩) :=
  c1_swap_and_retry_once dcAgent initialEnv server401 "GET" "keys" none none
    [] 0 ⟨"mykey", "~/.ssh/id_rsa", true⟩ rfl rfl rfl rfl

/-- The only session mutation `DataCenter.request` can perform is the
401 credential-source swap; the module state is never touched. -/
theorem request_frame_aux (dc : DataCenter) (env : PyEnv)
    (server : Nat → Response) (method path : String)
    (headers : Option Headers) (data : Option Json) (params : Params)
    (k : Nat) :
    (dc.request env server method path headers data params k).env = env ∧
    ((dc.request env server method path headers data params k).dc = dc ∨
      ((server k).status = 401 ∧ authAgent dc.auth = true ∧
        (dc.request env server method path headers data params k).dc =
          { dc with auth := dc.auth.map Signer.swap_keys })) := by
  by_cases h : ((server k).status == 401 && authAgent dc.auth) = true
  · rw [request_swap dc env server method path headers data params k h]
    have hp := h
    simp only [Bool.and_eq_true, beq_iff_eq] at hp
    exact ⟨rfl, Or.inr ⟨hp.1, hp.2, rfl⟩⟩
  · rw [request_once dc env server method path headers data params k
      (by simpa using h)]
    exact ⟨rfl, Or.inl rfl⟩

/-- C3 (amended): `DataCenter.request` leaves the module state untouched
and mutates no session state, except that when the 401 credential-swap
branch fires, the session's credential has its source swapped. -/
theorem c3_request_frame (dc : DataCenter) (env : PyEnv)
    (server : Nat → Response) (method path : String)
    (headers : Option Headers) (data : Option Json) (params : Params)
    (k : Nat) :
    (dc.request env server method path headers data params k).env = env ∧
    ((dc.request env server method path headers data params k).dc = dc ∨
      ((server k).status = 401 ∧ authAgent dc.auth = true ∧
        (dc.request env server method path headers data params k).dc =
          { dc with auth := dc.auth.map Signer.swap_keys })) :=
  request_frame_aux dc env server method path headers data params k

/-- Counterexample to C3 as stated: a 401 response with an untried agent
key leaves the session's credential mutated, so `request` is not free of
local state effects for every response status. -/
theorem c3_counterexample :
    (dcAgent.request initialEnv server401 "GET" "keys" none none []
      0).dc ≠ dcAgent := by
  rw [request_swap dcAgent initialEnv server401 "GET" "keys" none none [] 0
    (by decide)]
  intro h
  have h2 := congrArg (fun d => authAgent d.auth) h
  simp [authAgent, dcAgent, Signer.swap_keys] at h2

/-- C9: `DataCenter.__init__` binds `default_headers` to the module-level
`DEFAULT_HEADERS` dict by reference, so constructing a later DataCenter
with a custom header mutates the shared dict in place and the custom
header becomes visible through the `default_headers` of every instance,
the previously constructed and the subsequently constructed alike. -/
theorem c9_default_headers_shared_by_reference :
    (DataCenter.init initialEnv none none "~/.ssh/id_rsa" none none none
      false true false).1.headers_addr =
      (DataCenter.init (DataCenter.init initialEnv none none "~/.ssh/id_rsa"
        none none none false true false).2 none none "~/.ssh/id_rsa"
        (some [("X-Custom", "1")]) none none false true false).1.headers_addr ∧
    dictGet?
      (storeGet
        (DataCenter.init (DataCenter.init initialEnv none none
          "~/.ssh/id_rsa" none none none false true false).2 none none
          "~/.ssh/id_rsa" (some [("X-Custom", "1")]) none none false true
          false).2
        (DataCenter.init initialEnv none none "~/.ssh/id_rsa" none none none
          false true false).1.headers_addr)
      "X-Custom" = some "1" ∧
    dictGet?
      (storeGet
        (DataCenter.init
          (DataCenter.init (DataCenter.init initialEnv none none
            "~/.ssh/id_rsa" none none none false true false).2 none none
            "~/.ssh/id_rsa" (some [("X-Custom", "1")]) none none false true
            false).2
          none none "~/.ssh/id_rsa" none none none false true false).2
        (DataCenter.init
          (DataCenter.init (DataCenter.init initialEnv none none
            "~/.ssh/id_rsa" none none none false true false).2 none none
            "~/.ssh/id_rsa" (some [("X-Custom", "1")]) none none false true
            false).2
          none none "~/.ssh/id_rsa" none none none false true
          false).1.headers_addr)
      "X-Custom" = some "1" := by
  refine ⟨rfl, ?_, ?_⟩ <;> rfl

/-- C5: a session constructed without a `key_id` has no Credential, and
every request it makes goes on the wire unsigned (`auth = none`), exactly
once, with no client-side error raised before dispatch — the outcome is
decided by the server's response alone. -/
theorem c5_unauthenticated_request_proceeds (env : PyEnv)
    (location : Option String) (secret : String) (headers : Option Headers)
    (login : Option Json) (kl : Option (List (String × String)))
    (allow_agent verify agent : Bool) (env2 : PyEnv)
    (server : Nat → Response) (method path : String)
    (hdrs : Option Headers) (data : Option Json) (params : Params)
    (k : Nat) :
    (DataCenter.init env location none secret headers login kl allow_agent
      verify agent).1.auth = none ∧
    ((DataCenter.init env location none secret headers login kl allow_agent
      verify agent).1.request env2 server method path hdrs data params
        k).sent =
      [mkNetRequest (DataCenter.init env location none secret headers login
        kl allow_agent verify agent).1 env2 method path hdrs data params] ∧
    (∀ r ∈ ((DataCenter.init env location none secret headers login kl
        allow_agent verify agent).1.request env2 server method path hdrs
        data params k).sent, r.auth = none) ∧
    ((DataCenter.init env location none secret headers login kl allow_agent
      verify agent).1.request env2 server method path hdrs data params
        k).result = (finishResponse (server k)).1 := by
  have hauth : (DataCenter.init env location none secret headers login kl
      allow_agent verify agent).1.auth = none := by
    simp [DataCenter.init, strTruthy]
  have hreq := request_once (DataCenter.init env location none secret
    headers login kl allow_agent verify agent).1 env2 server method path
    hdrs data params k (by simp [hauth, authAgent])
  refine ⟨hauth, ?_, ?_, ?_⟩
  · rw [hreq]
  · rw [hreq]
    intro r hr
    simp only [List.mem_singleton] at hr
    subst hr
    simp [mkNetRequest, hauth]
  · rw [hreq]

/-- C4 at its failing input: the client-error guard is
`400 <= status < 499`, so a 499 response — a 4xx client error — is
returned as a successful decode with no error raised, while the same
response with status 498 raises `HTTPError` with its status and has its
body surfaced on stderr rather than swallowed. -/
theorem c4_status_499_not_raised :
    (dcAnon.request initialEnv server499 "GET" "packages" none none []
      0).result =
      .ok (.json (.obj [("code", .str "TooManyRequests")]), server499 0) ∧
    (dcAnon.request initialEnv server498 "GET" "packages" none none []
      0).result = .error (.httpError 498) ∧
    (dcAnon.request initialEnv server498 "GET" "packages" none none []
      0).stderr = [.obj [("code", .str "TooManyRequests")]] := by
  rw [request_once dcAnon initialEnv server499 "GET" "packages" none none []
      0 (by decide),
    request_once dcAnon initialEnv server498 "GET" "packages" none none []
      0 (by decide)]
  refine ⟨?_, ?_, ?_⟩ <;> rfl

/-- C2 at its failing input: against a server reporting a resource count
of 2500 and a query limit of 1000, a non-paged `machines()` call issues
exactly one request (with no offset parameter at all) and then raises
`NameError` — the offset-advance statement assigns into an undefined name
`data` — instead of issuing requests at offsets 0, 1000, 2000 and
returning 2500 entities. -/
theorem c2_pagination_raises_name_error :
    DataCenter.machines dcAnon initialEnv serverPaged 0 none none none none
      none none none false false none none =
      (.error (.nameError "data"),
       [mkNetRequest dcAnon initialEnv "GET" "machines" none none []],
       1) := by
  have hreq := request_once dcAnon initialEnv serverPaged "GET" "machines"
    none none [] 0 (by decide)
  simp [DataCenter.machines, argTruthy, strTruthy, intTruthy, hreq]
  rfl

/-- Every request `DataCenter.request` puts on the wire carries exactly
the method and params dict the caller supplied. -/
theorem request_sent_params (dc : DataCenter) (env : PyEnv)
    (server : Nat → Response) (method path : String)
    (headers : Option Headers) (data : Option Json) (params : Params)
    (k : Nat) :
    ∀ r ∈ (dc.request env server method path headers data params k).sent,
      r.method = method ∧ r.params = params := by
  by_cases h : ((server k).status == 401 && authAgent dc.auth) = true
  · rw [request_swap dc env server method path headers data params k h]
    intro r hr
    simp only [List.mem_cons, List.mem_singleton, List.not_mem_nil,
      or_false] at hr
    rcases hr with rfl | rfl <;> simp [mkNetRequest]
  · rw [request_once dc env server method path headers data params k
      (by simpa using h)]
    intro r hr
    simp only [List.mem_singleton] at hr
    subst hr
    simp [mkNetRequest]

/-- With every filter option left at its default, the `machines` accessor
hands an empty params dict to `request`. -/
theorem machines_default_sent (dc : DataCenter) (env : PyEnv)
    (server : Nat → Response) (k : Nat) :
    (DataCenter.machines dc env server k none none none none none none none
      false false none none).2.1 =
      (dc.request env server "GET" "machines" none none [] k).sent := by
  simp only [DataCenter.machines, argTruthy, strTruthy, intTruthy,
    Bool.false_eq_true, if_false]
  repeat' split
  all_goals rfl

/-- C7: calling a filtered-listing accessor (`packages`, `machines`) with
every filter option left at its default puts requests on the wire that
carry no query parameters at all. -/
theorem c7_omitted_options_send_no_params (dc : DataCenter) (env : PyEnv)
    (server : Nat → Response) (k : Nat) :
    (∀ r ∈ (dc.packages env server k none none none none none none
        none).sent, r.params = []) ∧
    (∀ r ∈ (DataCenter.machines dc env server k none none none none none
        none none false false none none).2.1, r.params = []) := by
  constructor
  · intro r hr
    have h := request_sent_params dc env server "GET" "packages" none none
      [] k r
    simp only [DataCenter.packages, strTruthy, intTruthy] at hr
    exact (h hr).2
  · intro r hr
    rw [machines_default_sent dc env server k] at hr
    exact (request_sent_params dc env server "GET" "machines" none none []
      k r hr).2

/-- The session/request bundle `num_machines` returns is exactly its one
filter-less HEAD request, whatever the count extraction does. -/
theorem num_machines_snd (dc : DataCenter) (env : PyEnv)
    (server : Nat → Response) (k : Nat)
    (machine_type dataset state : Option String)
    (memory tombstone : Option Int) (tags : Option Record) :
    (DataCenter.num_machines dc env server k machine_type dataset state
      memory tombstone tags).2 =
      dc.request env server "HEAD" "machines" none none [] k := by
  simp only [DataCenter.num_machines]
  repeat' split
  all_goals rfl

/-- C10: `num_machines` accepts filter arguments but never reads them:
its result is identical whatever filters are supplied, and the one
request it issues is an unfiltered HEAD on the machines collection whose
server-reported `x-resource-count` header becomes the returned count. -/
theorem c10_num_machines_ignores_filters (dc : DataCenter) (env : PyEnv)
    (server : Nat → Response) (k : Nat)
    (machine_type dataset state : Option String)
    (memory tombstone : Option Int) (tags : Option Record) :
    DataCenter.num_machines dc env server k machine_type dataset state
      memory tombstone tags =
      DataCenter.num_machines dc env server k none none none none none
        none ∧
    (∀ r ∈ (DataCenter.num_machines dc env server k machine_type dataset
        state memory tombstone tags).2.sent,
      r.method = "HEAD" ∧ r.params = []) ∧
    (DataCenter.num_machines dc env serverCount k machine_type dataset
      state memory tombstone tags).1 = .ok 42 := by
  refine ⟨rfl, ?_, ?_⟩
  · intro r hr
    rw [num_machines_snd dc env server k machine_type dataset state memory
      tombstone tags] at hr
    exact request_sent_params dc env server "HEAD" "machines" none none []
      k r hr
  · have hreq := request_once dc env serverCount "HEAD" "machines" none
      none [] k (by simp [serverCount])
    simp only [DataCenter.num_machines, hreq]
    rfl

/-- `DataCenter.request` never changes the session's login scope. -/
theorem request_login_eq (dc : DataCenter) (env : PyEnv)
    (server : Nat → Response) (method path : String)
    (headers : Option Headers) (data : Option Json) (params : Params)
    (k : Nat) :
    (dc.request env server method path headers data params k).dc.login =
      dc.login := by
  rcases (request_frame_aux dc env server method path headers data params
    k).2 with h | ⟨_, _, h⟩ <;> rw [h]

/-- C8: the login scope defaults to the sentinel `'my'`; a successful
`me()` on a `'my'`-scoped session pins it to the account name the server
returned, and `me()` on an already-pinned session leaves the login scope
unchanged. -/
theorem c8_login_scope_pinning :
    (∀ (env : PyEnv) (location key_id : Option String) (secret : String)
       (headers : Option Headers) (kl : Option (List (String × String)))
       (aa v ag : Bool),
      (DataCenter.init env location key_id secret headers none kl aa v
        ag).1.login = .str "my") ∧
    (∀ (dc : DataCenter) (env : PyEnv) (server : Nat → Response) (k : Nat)
       (fs : Record) (resp : Response) (v : Json),
      dc.login = .str "my" →
      (dc.request env server "GET" "" none none [] k).result =
        .ok (.json (.obj fs), resp) →
      dictGet? fs "login" = some v →
      (dc.me env server k).dc.login = v) ∧
    (∀ (dc : DataCenter) (env : PyEnv) (server : Nat → Response) (k : Nat),
      dc.login.eqMy = false →
      (dc.me env server k).dc.login = dc.login) := by
  refine ⟨?_, ?_, ?_⟩
  · intro env location key_id secret headers kl aa v ag
    simp [DataCenter.init, optTruthy]
  · intro dc env server k fs resp v hmy hres hv
    have hlog := request_login_eq dc env server "GET" "" none none [] k
    simp only [DataCenter.me, hres, Decoded.val, jsonContains, hv,
      Option.isSome_some, Bool.true_and, hlog, hmy, Json.eqMy]
    simp [hv]
  · intro dc env server k hmy
    have hlog := request_login_eq dc env server "GET" "" none none [] k
    simp only [DataCenter.me]
    repeat' split
    all_goals simp_all [hlog, hmy]

/-- Witness for C8: a fresh session is `'my'`-scoped, one successful
`me()` pins it to the returned account `alice`, and `me()` on a session
already pinned to `bob` leaves the scope at `bob`. -/
theorem c8_login_scope_pinning_witness :
    (DataCenter.init initialEnv none none "~/.ssh/id_rsa" none none none
      false true false).1.login = .str "my" ∧
    (dcAnon.me initialEnv serverMe 0).dc.login = .str "alice" ∧
    (({ dcAnon with login := Json.str "bob" } : DataCenter).me initialEnv
      serverMe 0).dc.login = Json.str "bob" :=
  ⟨c8_login_scope_pinning.1 initialEnv none none "~/.ssh/id_rsa" none none
      false true false,
   c8_login_scope_pinning.2.1 dcAnon initialEnv serverMe 0
     [("login", .str "alice"), ("companyName", .str "Acme")] (serverMe 0)
     (.str "alice") rfl
     (by rw [request_once dcAnon initialEnv serverMe "GET" "" none none []
        0 (by decide)]; rfl)
     rfl,
   c8_login_scope_pinning.2.2 { dcAnon with login := Json.str "bob" }
     initialEnv serverMe 0 rfl⟩


/-- Removing one key leaves every other lookup unchanged. -/
theorem dictGet?_remove_ne {α : Type} (d : List (String × α)) (s k : String)
    (h : k ≠ s) : dictGet? (dictRemove d s) k = dictGet? d k := by
  induction d with
  | nil => rfl
  | cons p t ih =>
    by_cases hps : p.1 = s
    · have hpk : (p.1 == k) = false := by
        rw [beq_eq_false_iff_ne]
        intro hh
        exact h (hh.symm.trans hps)
      simp [dictRemove, dictGet?, hps, hpk, ih, Ne.symm h]
    · have hps' : (p.1 == s) = false := beq_eq_false_iff_ne.mpr hps
      simp [dictRemove, dictGet?, hps', ih]

/-- Setting a fresh key appends it. -/
theorem dictSet_not_mem {α : Type} (d : List (String × α)) (k : String)
    (v : α) (h : ∀ p ∈ d, p.1 ≠ k) : dictSet d k v = d ++ [(k, v)] := by
  have ha : d.any (fun p => p.1 == k) = false := by
    simp only [List.any_eq_false]
    intro p hp
    simpa using h p hp
  simp [dictSet, ha]

/-- Updating with keys disjoint from the base appends the update. -/
theorem dictUpdate_disjoint {α : Type} (l : List (String × α)) :
    ∀ d : List (String × α), (∀ q ∈ l, ∀ p ∈ d, p.1 ≠ q.1) →
      (l.map Prod.fst).Nodup → dictUpdate d l = d ++ l := by
  induction l with
  | nil => intro d _ _; simp [dictUpdate]
  | cons q t ih =>
    intro d hd hn
    rw [List.map_cons, List.nodup_cons] at hn
    have hstep : dictUpdate d (q :: t) =
        dictUpdate (dictSet d q.1 q.2) t := rfl
    rw [hstep, dictSet_not_mem d q.1 q.2
      (fun p hp => hd q (by simp) p hp)]
    rw [ih (d ++ [(q.1, q.2)]) ?_ hn.2]
    · simp
    · intro q' hq' p hp
      rcases List.mem_append.mp hp with hp | hp
      · exact hd q' (by simp [hq']) p hp
      · simp only [List.mem_singleton] at hp
        subst hp
        intro hcon
        apply hn.1
        rw [show q.1 = q'.1 from hcon]
        exact List.mem_map_of_mem Prod.fst hq'

/-- `dict.update` on an empty dict reproduces a duplicate-free update. -/
theorem dictUpdate_nil_nodup {α : Type} (c : List (String × α))
    (hn : (c.map Prod.fst).Nodup) : dictUpdate [] c = c := by
  simpa using dictUpdate_disjoint c [] (by simp) hn

/-- Re-setting a key that occurs nowhere leaves the map unchanged. -/
theorem map_set_id {α : Type} (c : List (String × α)) (k : String) (v : α)
    (h : ∀ p ∈ c, p.1 ≠ k) :
    c.map (fun p => if p.1 == k then (k, v) else p) = c := by
  induction c with
  | nil => rfl
  | cons p t ih =>
    have hp : (p.1 == k) = false := by simpa using h p (by simp)
    simp only [List.map_cons, hp, Bool.false_eq_true, if_false,
      List.cons.injEq, true_and]
    exact ih (fun q hq => h q (by simp [hq]))

/-- Setting a present entry of a duplicate-free dict to its own value is
the identity. -/
theorem dictSet_mem_self {α : Type} (c : List (String × α)) (k : String)
    (v : α) (hn : (c.map Prod.fst).Nodup) (hm : (k, v) ∈ c) :
    dictSet c k v = c := by
  have hk : c.any (fun p => p.1 == k) = true := by
    simp only [List.any_eq_true]
    exact ⟨(k, v), hm, by simp⟩
  simp only [dictSet, hk, if_true]
  induction c with
  | nil => rfl
  | cons p t ih =>
    rw [List.map_cons, List.nodup_cons] at hn
    rcases List.mem_cons.mp hm with hm1 | hm1
    · subst hm1
      simp only [List.map_cons, beq_self_eq_true, if_true,
        List.cons.injEq, true_and]
      refine map_set_id t k v ?_
      intro q hq hcon
      have hq1 : q.1 ∈ List.map Prod.fst t :=
        List.mem_map_of_mem Prod.fst hq
      rw [hcon] at hq1
      exact hn.1 hq1
    · by_cases hpk : p.1 = k
      · exfalso
        refine hn.1 ?_
        have hk : k ∈ List.map Prod.fst t :=
          List.mem_map_of_mem Prod.fst hm1
        rw [hpk]
        exact hk
      · have hp : (p.1 == k) = false := by simpa using hpk
        simp only [List.map_cons, hp, Bool.false_eq_true, if_false,
          List.cons.injEq, true_and]
        refine ih hn.2 hm1 ?_
        simp only [List.any_eq_true]
        exact ⟨(k, v), hm1, by simp⟩

/-- Updating a duplicate-free dict with entries it already holds is the
identity. -/
theorem dictUpdate_self_subset {α : Type} (l : List (String × α)) :
    ∀ c : List (String × α), (c.map Prod.fst).Nodup →
      (∀ p ∈ l, p ∈ c) → dictUpdate c l = c := by
  induction l with
  | nil => intro c _ _; rfl
  | cons q t ih =>
    intro c hn hsub
    have hstep : dictUpdate c (q :: t) =
        dictUpdate (dictSet c q.1 q.2) t := rfl
    rw [hstep, dictSet_mem_self c q.1 q.2 hn (hsub q (by simp))]
    exact ih c hn (fun p hp => hsub p (by simp [hp]))

/-- The `_credentials` merge is idempotent across a refresh that fetches
the same duplicate-free credentials dict. -/
theorem dictUpdate_idem {α : Type} (c : List (String × α))
    (hn : (c.map Prod.fst).Nodup) :
    dictUpdate (dictUpdate [] c) c = dictUpdate [] c := by
  rw [dictUpdate_nil_nodup c hn]
  exact dictUpdate_self_subset c c hn (fun p hp => hp)

/-- Whenever `Machine._save` succeeds, the resulting attribute set is the
one `mkSaved` computes. -/
theorem save_data_ok_eq (oldCreds : Record) (id : Json) (data : Record)
    (m : MachineObj) (h : Machine.save_data oldCreds id data = .ok m) :
    m = mkSaved oldCreds id data := by
  unfold Machine.save_data at h
  rcases hm : dictGet? data "metadata" with _ | jm
  case some =>
    rcases jm with _ | s1 | n1 | b1 | xs1 | fs1
    all_goals try (simp only [hm, dictGet?, bind, Except.bind, Except.instMonad] at h; exact Except.noConfusion h)
    · -- metadata is a dict
      simp only [hm, dictGet?, bind, Except.bind, Except.instMonad] at h
      rcases hcr : dictGet? fs1 "credentials" with _ | jc
      case some =>
        rcases jc with _ | s2 | n2 | b2 | xs2 | cs2
        all_goals try (simp only [hcr, dictGet?, bind, Except.bind, Except.instMonad] at h; exact Except.noConfusion h)
        · -- credentials is a dict
          simp only [hcr, dictGet?, bind, Except.bind, Except.instMonad] at h
          rcases hc : dictGet? data "created" with _ | jc2
          case none =>
            simp only [dt_time, hc, dictGet?, bind, Except.bind, Except.instMonad] at h
            exact Except.noConfusion h
          case some =>
            rcases jc2 with _ | s3 | n3 | b3 | xs3 | fs3
            all_goals try (simp only [dt_time, hc, dictGet?, bind, Except.bind, Except.instMonad] at h; exact Except.noConfusion h)
            · -- created is a string
              simp only [dt_time, hc, dictGet?, bind, Except.bind, Except.instMonad] at h
              rcases hu : dictGet? data "updated" with _ | ju
              case none =>
                simp only [dt_time, hu, dictGet?, bind, Except.bind, Except.instMonad] at h
                exact Except.noConfusion h
              case some =>
                rcases ju with _ | s4 | n4 | b4 | xs4 | fs4
                all_goals try (simp only [dt_time, hu, dictGet?, bind, Except.bind, Except.instMonad] at h; exact Except.noConfusion h)
                · -- updated is a string
                  simp only [dt_time, hu, dictGet?, bind, Except.bind, Except.instMonad, Except.ok.injEq] at h
                  rw [← h]
                  simp [mkSaved, metaOf, credsOf, dtOf, dictGet?, dictRemove, hm, hcr, hc, hu]
      case none =>
        simp only [hcr, dictGet?, bind, Except.bind, Except.instMonad] at h
        rcases hc : dictGet? data "created" with _ | jc2
        case none =>
          simp only [dt_time, hc, dictGet?, bind, Except.bind, Except.instMonad] at h
          exact Except.noConfusion h
        case some =>
          rcases jc2 with _ | s3 | n3 | b3 | xs3 | fs3
          all_goals try (simp only [dt_time, hc, dictGet?, bind, Except.bind, Except.instMonad] at h; exact Except.noConfusion h)
          · simp only [dt_time, hc, dictGet?, bind, Except.bind, Except.instMonad] at h
            rcases hu : dictGet? data "updated" with _ | ju
            case none =>
              simp only [dt_time, hu, dictGet?, bind, Except.bind, Except.instMonad] at h
              exact Except.noConfusion h
            case some =>
              rcases ju with _ | s4 | n4 | b4 | xs4 | fs4
              all_goals try (simp only [dt_time, hu, dictGet?, bind, Except.bind, Except.instMonad] at h; exact Except.noConfusion h)
              · simp only [dt_time, hu, dictGet?, bind, Except.bind, Except.instMonad, Except.ok.injEq] at h
                rw [← h]
                simp [mkSaved, metaOf, credsOf, dtOf, dictGet?, dictRemove, hm, hcr, hc, hu]
  case none =>
    simp only [hm, dictGet?, bind, Except.bind, Except.instMonad] at h
    rcases hc : dictGet? data "created" with _ | jc2
    case none =>
      simp only [dt_time, hc, dictGet?, bind, Except.bind, Except.instMonad] at h
      exact Except.noConfusion h
    case some =>
      rcases jc2 with _ | s3 | n3 | b3 | xs3 | fs3
      all_goals try (simp only [dt_time, hc, dictGet?, bind, Except.bind, Except.instMonad] at h; exact Except.noConfusion h)
      · simp only [dt_time, hc, dictGet?, bind, Except.bind, Except.instMonad] at h
        rcases hu : dictGet? data "updated" with _ | ju
        case none =>
          simp only [dt_time, hu, dictGet?, bind, Except.bind, Except.instMonad] at h
          exact Except.noConfusion h
        case some =>
          rcases ju with _ | s4 | n4 | b4 | xs4 | fs4
          all_goals try (simp only [dt_time, hu, dictGet?, bind, Except.bind, Except.instMonad] at h; exact Except.noConfusion h)
          · simp only [dt_time, hu, dictGet?, bind, Except.bind, Except.instMonad, Except.ok.injEq] at h
            rw [← h]
            simp [mkSaved, metaOf, credsOf, dtOf, dictGet?, dictRemove, hm, hc, hu]

/-- Popping a different key does not change the metadata a save reads. -/
theorem metaOf_remove_ne (d : Record) (s : String) (h : "metadata" ≠ s) :
    metaOf (dictRemove d s) = metaOf d := by
  unfold metaOf
  rw [dictGet?_remove_ne d s "metadata" h]

/-- Popping a different key does not change the credentials a save pops. -/
theorem credsOf_remove_ne (d : Record) (s : String) (h : "metadata" ≠ s) :
    credsOf (dictRemove d s) = credsOf d := by
  unfold credsOf
  rw [metaOf_remove_ne d s h]

/-- Popping a different key does not change a timestamp field. -/
theorem dtOf_remove_ne (d : Record) (s key : String) (h : key ≠ s) :
    dtOf (dictRemove d s) key = dtOf d key := by
  unfold dtOf
  rw [dictGet?_remove_ne d s key h]

/-- C6: refreshing a Machine proxy with a record that differs from the
construction record only in the `state` field changes exactly the cached
state (every other attribute is as before), and afterwards every cached
attribute matches the entity built directly from the new record — a full
replace; a Snapshot's refresh is likewise a full re-save of the fetched
record. -/
theorem c6_refresh_full_replace (d1 d2 fetch1 fetch2 : Record)
    (m1 m2 mf : MachineObj)
    (hagree : dictRemove d1 "state" = dictRemove d2 "state")
    (hnodup : ((credsOf d2).map Prod.fst).Nodup)
    (hne1 : (dictRemove d1 "id").isEmpty = false)
    (hne2 : (dictRemove d2 "id").isEmpty = false)
    (h1 : Machine.initData d1 fetch1 = .ok m1)
    (h2 : Machine.refresh m1 d2 = .ok m2)
    (h3 : Machine.initData d2 fetch2 = .ok mf) :
    m2 = { m1 with state := mf.state } ∧ m2 = mf ∧
    (∀ (s0 : SnapshotObj) (dr : Record),
      Snapshot.refresh s0 dr = Snapshot.save_data s0.name dr) := by
  have hag : ∀ key, key ≠ "state" → dictGet? d1 key = dictGet? d2 key := by
    intro key hk
    rw [← dictGet?_remove_ne d1 "state" key hk, hagree,
      dictGet?_remove_ne d2 "state" key hk]
  rcases hid1 : dictGet? d1 "id" with _ | idv
  · simp only [Machine.initData, hid1, bind, Except.bind,
      Except.instMonad] at h1
    exact Except.noConfusion h1
  have hid2 : dictGet? d2 "id" = some idv := by
    rw [← hag "id" (by decide)]
    exact hid1
  simp only [Machine.initData, hid1, hne1, bind, Except.bind,
    Except.instMonad, Bool.false_eq_true, if_false] at h1
  simp only [Machine.initData, hid2, hne2, bind, Except.bind,
    Except.instMonad, Bool.false_eq_true, if_false] at h3
  rw [Machine.refresh] at h2
  have e1 := save_data_ok_eq _ _ _ _ h1
  have e2 := save_data_ok_eq _ _ _ _ h2
  have e3 := save_data_ok_eq _ _ _ _ h3
  subst e1 e2 e3
  have t1 : metaOf (dictRemove d1 "id") = metaOf d2 := by
    rw [metaOf_remove_ne d1 "id" (by decide)]
    unfold metaOf
    rw [hag "metadata" (by decide)]
  have t2 : metaOf (dictRemove d2 "id") = metaOf d2 :=
    metaOf_remove_ne d2 "id" (by decide)
  have c1 : credsOf (dictRemove d1 "id") = credsOf d2 := by
    unfold credsOf
    rw [t1]
  have c2 : credsOf (dictRemove d2 "id") = credsOf d2 := by
    unfold credsOf
    rw [t2]
  have g1 : ∀ key, key ≠ "id" → key ≠ "state" →
      dictGet? (dictRemove d1 "id") key = dictGet? d2 key := by
    intro key hk hs
    rw [dictGet?_remove_ne d1 "id" key hk, hag key hs]
  have g2 : ∀ key, key ≠ "id" →
      dictGet? (dictRemove d2 "id") key = dictGet? d2 key := by
    intro key hk
    rw [dictGet?_remove_ne d2 "id" key hk]
  have dt1c : dtOf (dictRemove d1 "id") "created" = dtOf d2 "created" := by
    unfold dtOf
    rw [g1 "created" (by decide) (by decide)]
  have dt1u : dtOf (dictRemove d1 "id") "updated" = dtOf d2 "updated" := by
    unfold dtOf
    rw [g1 "updated" (by decide) (by decide)]
  have dt2c : dtOf (dictRemove d2 "id") "created" = dtOf d2 "created" :=
    dtOf_remove_ne d2 "id" "created" (by decide)
  have dt2u : dtOf (dictRemove d2 "id") "updated" = dtOf d2 "updated" :=
    dtOf_remove_ne d2 "id" "updated" (by decide)
  have hidem : dictUpdate (dictUpdate [] (credsOf d2)) (credsOf d2) =
      dictUpdate [] (credsOf d2) := dictUpdate_idem (credsOf d2) hnodup
  refine ⟨?_, ?_, fun s0 dr => rfl⟩
  · simp only [mkSaved, MachineObj.mk.injEq, t1, c1, c2, hidem, dt1c,
      dt1u, dt2c, dt2u, g1 "name" (by decide) (by decide),
      g1 "type" (by decide) (by decide),
      g1 "dataset" (by decide) (by decide),
      g1 "memory" (by decide) (by decide),
      g1 "disk" (by decide) (by decide),
      g1 "ips" (by decide) (by decide),
      g2 "state" (by decide)]
  · simp only [mkSaved, MachineObj.mk.injEq, t1, t2, c1, c2, hidem, dt1c,
      dt1u, dt2c, dt2u, g1 "name" (by decide) (by decide),
      g1 "type" (by decide) (by decide),
      g1 "dataset" (by decide) (by decide),
      g1 "memory" (by decide) (by decide),
      g1 "disk" (by decide) (by decide),
      g1 "ips" (by decide) (by decide),
      g2 "name" (by decide), g2 "type" (by decide),
      g2 "state" (by decide), g2 "dataset" (by decide),
      g2 "memory" (by decide), g2 "disk" (by decide),
      g2 "ips" (by decide)]

/-- Witness for C6 at concrete records that differ only in `state`. -/
theorem c6_refresh_full_replace_witness :
    dictRemove recProvisioning "state" = dictRemove recRunning "state" ∧
    machineOf (Machine.refresh
        (machineOf (Machine.initData recProvisioning [])) recRunning) =
      { machineOf (Machine.initData recProvisioning []) with
        state := (machineOf (Machine.initData recRunning [])).state } ∧
    machineOf (Machine.refresh
        (machineOf (Machine.initData recProvisioning [])) recRunning) =
      machineOf (Machine.initData recRunning []) :=
  ⟨rfl,
   (c6_refresh_full_replace recProvisioning recRunning [] []
      (machineOf (Machine.initData recProvisioning []))
      (machineOf (Machine.refresh
        (machineOf (Machine.initData recProvisioning [])) recRunning))
      (machineOf (Machine.initData recRunning []))
      rfl (by decide) rfl rfl rfl rfl rfl).1,
   (c6_refresh_full_replace recProvisioning recRunning [] []
      (machineOf (Machine.initData recProvisioning []))
      (machineOf (Machine.refresh
        (machineOf (Machine.initData recProvisioning [])) recRunning))
      (machineOf (Machine.initData recRunning []))
      rfl (by decide) rfl rfl rfl rfl rfl).2.1⟩
